import Mathlib

/-!
Verification development for the external-process bridge of the
Financial-Calculator repository (`src-tauri/src/python_bridge.rs`) and its
settings store (`src-tauri/src/settings.rs`).

The Rust functions are shallowly embedded as pure Lean functions over an
explicit "world" describing the behaviour of the environment (the spawned
worker process, its pipes, the UI event sink, the filesystem).  Machine
integers that matter (elapsed milliseconds, poll counts) are modelled as
`Nat`; `serde_json` parse results are carried as oracles attached to each
input line, since the claims quantify over parse outcomes rather than over
the byte-level JSON grammar.
-/

/-- Model of `serde_json::Value`.  Numbers are modelled as rationals; none of
the verified code paths performs arithmetic on them. -/
inductive Json where
  | null
  | bool (b : Bool)
  | num (q : Rat)
  | str (s : String)
  | arr (elems : List Json)
  | obj (fields : List (String × Json))

/-- Struct `ProgressUpdate` from python_bridge.rs lines 41-53 (field names follow the
serde camelCase wire renaming). -/
structure ProgressUpdate where
  status : String
  currentPage : Int
  totalPages : Int
  percentage : Int
  message : String
  partialItems : Option Json
  partialText : Option String

/-- Struct `PythonResponse` from python_bridge.rs lines 25-39. -/
structure PythonResponse where
  status : String
  extractedData : Option Json
  metrics : Option Json
  metadata : Option Json
  message : Option String
  error : Option String

/-- Model of `str::trim`: strip leading and trailing whitespace.  Line text is
modelled as a list of characters so that the noise filter is executable by
the kernel. -/
def rustTrim (cs : List Char) : List Char :=
  ((cs.dropWhile Char.isWhitespace).reverse.dropWhile Char.isWhitespace).reverse

/-- Model of `line.trim().starts_with('\x7b')`: whether the trimmed line begins with
the JSON object opening character. -/
def startsWithBrace (cs : List Char) : Bool :=
  match rustTrim cs with
  | [] => false
  | c :: _ => c == '\x7b'

/-- One line of worker stdout text, together with the results of the two
`serde_json::from_str` attempts the read loop performs on it.  The parse
results are oracles carried with the input: the bridge's control flow depends
only on them, never on the characters beyond `trim`/`starts_with`. -/
structure StdoutLine where
  raw : List Char
  progressParse : Option ProgressUpdate
  responseParse : Option PythonResponse

/-- An item yielded by `reader.lines()`: either an I/O error (`Err(_)`), which
the loop body skips via `if let Ok(line)`, or a line of text. -/
inductive LineItem where
  | ioErr
  | text (l : StdoutLine)

/-- A yielded item together with the elapsed time (ms since `start_time`) at
which `reader.lines()` produced it — the value `start_time.elapsed()` has when
the loop body's deadline check runs for this item. -/
structure TimedItem where
  arriveMs : Nat
  item : LineItem

/-- The 900-second overall deadline, python_bridge.rs line 199. -/
def timeoutMs : Nat := 900 * 1000

/-- The 5-second cleanup window, python_bridge.rs line 253. -/
def cleanupTimeoutMs : Nat := 5 * 1000

/-- The 50 ms sleep between `try_wait` polls, python_bridge.rs line 265. -/
def pollSleepMs : Nat := 50

/-- Result of the stdout read loop (lines 202-235): the final response if one
was classified, the progress events pushed to the UI sink paired with the
(discarded) result of each `app.emit` call, and whether the deadline branch
fired. -/
structure LoopOutcome where
  finalResponse : Option PythonResponse
  emitted : List (ProgressUpdate × Bool)
  timedOut : Bool

/-- The stdout read loop of `run_python_analysis` (lines 202-235).
`sink p` is the success of `app.emit("pdf-progress", p)`; its result is bound
to `_` in the source, so it is recorded in the trace but never branched on.
`closes` says whether the stream reaches end-of-file after the listed items;
if it does not, `reader.lines()` blocks forever once the items are consumed,
modelled by returning `none`. -/
def readLoop (sink : ProgressUpdate → Bool) (closes : Bool) :
    List TimedItem → List (ProgressUpdate × Bool) → Option LoopOutcome
  | [], acc => if closes then some ⟨none, acc.reverse, false⟩ else none
  | e :: rest, acc =>
    if timeoutMs < e.arriveMs then
      some ⟨none, acc.reverse, true⟩
    else
      match e.item with
      | .ioErr => readLoop sink closes rest acc
      | .text l =>
        if !(startsWithBrace l.raw) then
          readLoop sink closes rest acc
        else
          match l.progressParse with
          | some p =>
            if p.status = "progress" then
              readLoop sink closes rest ((p, sink p) :: acc)
            else
              match l.responseParse with
              | some r => some ⟨some r, acc.reverse, false⟩
              | none => readLoop sink closes rest acc
          | none =>
            match l.responseParse with
            | some r => some ⟨some r, acc.reverse, false⟩
            | none => readLoop sink closes rest acc

/-- The progress event (if any) that the loop body classifies from an item:
a text line whose trimmed form starts with the object-opening character,
parsing as `ProgressUpdate` with discriminator `"progress"`. -/
def progressOf (e : TimedItem) : Option ProgressUpdate :=
  match e.item with
  | .ioErr => none
  | .text l =>
    if !(startsWithBrace l.raw) then none
    else
      match l.progressParse with
      | some p => if p.status = "progress" then some p else none
      | none => none

/-- The terminal response (if any) that the loop body classifies from an
item; mirrors the loop's branch order: progress classification wins, then the
`PythonResponse` parse. -/
def terminalOf (e : TimedItem) : Option PythonResponse :=
  match e.item with
  | .ioErr => none
  | .text l =>
    if !(startsWithBrace l.raw) then none
    else
      match l.progressParse with
      | some p => if p.status = "progress" then none else l.responseParse
      | none => l.responseParse

/-- An item classified as a progress event, arriving within the deadline. -/
def ProgressItem (e : TimedItem) : Prop :=
  e.arriveMs ≤ timeoutMs ∧ ∃ l p, e.item = .text l ∧
    startsWithBrace l.raw = true ∧
    l.progressParse = some p ∧ p.status = "progress"

/-- An item classified as the terminal response `r`, arriving within the
deadline. -/
def TerminalItem (e : TimedItem) (r : PythonResponse) : Prop :=
  e.arriveMs ≤ timeoutMs ∧ ∃ l, e.item = .text l ∧
    startsWithBrace l.raw = true ∧
    (∀ p, l.progressParse = some p → ¬ p.status = "progress") ∧
    l.responseParse = some r

/-- Result of one `child.try_wait()` call: process exited with a status,
still running, or the call itself failed. -/
inductive TryWaitRes where
  | exited
  | running
  | errRes
deriving DecidableEq

/-- Behaviour of the environment during the reaping phase: the items yielded
by the stderr reader (`none` models an `Err(_)` item, skipped by
`if let Ok(line)`), the result of the n-th `try_wait` poll, and whether the
final `try_wait` after a forced kill yields a status. -/
structure ReapEnv where
  stderrLines : List (Option String)
  tryWait : Nat → TryWaitRes
  tryWaitAfterKill : Bool

/-- Maximum number of `try_wait` polls inside the cleanup loop.  Idealised
timing: each iteration advances elapsed time by exactly `pollSleepMs`, so the
condition `cleanup_start.elapsed() < cleanup_timeout` admits polls
0, ..., `cleanupTimeoutMs / pollSleepMs - 1`. -/
def cleanupMaxPolls : Nat := cleanupTimeoutMs / pollSleepMs

/-- How the cleanup polling loop (lines 257-272) ended: a status was obtained
at poll index `i`, a `try_wait` error broke the loop at poll index `i`, or the
window elapsed with the process still running. -/
inductive ReapLoopEnd where
  | gotStatus (i : Nat)
  | errBreak (i : Nat)
  | window
deriving DecidableEq

/-- The cleanup polling loop, polling `tw` starting at index `i` with `fuel`
iterations remaining before the window closes. -/
def reapLoopAux (tw : Nat → TryWaitRes) : Nat → Nat → ReapLoopEnd
  | _, 0 => .window
  | i, fuel + 1 =>
    match tw i with
    | .exited => .gotStatus i
    | .errRes => .errBreak i
    | .running => reapLoopAux tw (i + 1) fuel

/-- Observable actions of the reaping phase (lines 242-282). -/
structure ReapTrace where
  drained : List String
  loopEnd : ReapLoopEnd
  killed : Bool
  finalCheck : Bool
  statusObtained : Bool
deriving DecidableEq

/-- The reaping phase of `run_python_analysis` (lines 242-282): drain at most
10 stderr items keeping the `Ok` ones, poll `try_wait` for up to the cleanup
window sleeping `pollSleepMs` between polls, and if no exit status was
obtained, force-kill and make one final `try_wait`. -/
def reapPhase (env : ReapEnv) : ReapTrace :=
  let drained := (env.stderrLines.take 10).filterMap id
  match reapLoopAux env.tryWait 0 cleanupMaxPolls with
  | .gotStatus i => ⟨drained, .gotStatus i, false, false, true⟩
  | .errBreak i => ⟨drained, .errBreak i, true, true, env.tryWaitAfterKill⟩
  | .window => ⟨drained, .window, true, true, env.tryWaitAfterKill⟩

/-- How the request-writing block takes hold of `child.stdin`:
`Option::as_mut` (a reborrow — the handle stays inside `child.stdin`, so the
end of the block drops only the reference and the OS pipe stays open) versus
`Option::take` (moves the handle into the block, so the end of the block drops
the handle and closes the pipe). -/
inductive StdinOp where
  | asMut
  | take
deriving DecidableEq

/-- Whether the worker's stdin pipe is closed when the block holding the
result of `StdinOp` ends. -/
def stdinClosedAtBlockEnd : StdinOp → Bool
  | .asMut => false
  | .take => true

/-- Function `run_python_analysis` accesses `child.stdin` with `as_mut` (line 178). -/
def run_python_analysis_stdin_op : StdinOp := .asMut

/-- Function `update_terminology_mapping` accesses `child.stdin` with `take`
(line 313). -/
def update_terminology_mapping_stdin_op : StdinOp := .take

/-- Environment of one `run_python_analysis` call: results of the fallible
steps, the UI sink, the worker's stdout stream, and the reaping-phase
environment.  The dynamic suffixes of the error strings (the formatted I/O
error values) are elided. -/
structure World where
  pythonFound : Bool
  scriptFound : Bool
  serializeOk : Bool
  spawnOk : Bool
  writeReqOk : Bool
  writeNlOk : Bool
  flushOk : Bool
  sink : ProgressUpdate → Bool
  stdoutEvents : List TimedItem
  stdoutCloses : Bool
  reap : ReapEnv

/-- Observable actions of one `run_python_analysis` call. -/
structure Trace where
  stdinClosedBeforeReadLoop : Bool
  emitted : List (ProgressUpdate × Bool)
  killedInLoop : Bool
  reap : Option ReapTrace

/-- Trace of a call that returned before reaching the read loop. -/
def Trace.initial : Trace :=
  { stdinClosedBeforeReadLoop := false
    emitted := []
    killedInLoop := false
    reap := none }

def pythonNotFoundMsg : String := "Python not found. Please install Python 3.x"
def scriptNotFoundMsg : String := "Python API script not found"
def serializeFailMsg : String := "Failed to serialize request"
def spawnFailMsg : String := "Failed to spawn Python"
def writeStdinFailMsg : String := "Failed to write to Python stdin"
def writeNewlineFailMsg : String := "Failed to write newline"
def flushFailMsg : String := "Failed to flush stdin"
def timeoutErrMsg : String :=
  "PDF analysis timed out after 15 minutes. The document may be very large (>500 pages) or heavily formatted. Consider splitting the document or checking if it contains images that require OCR."
def noResponseMsg : String := "No response from Python. Process may have timed out or crashed."

/-- Shallow embedding of `run_python_analysis` (python_bridge.rs lines
138-291).  Returns `none` when the call never returns (the read loop blocked
forever on a silent, never-closing stdout pipe); otherwise the returned
`Result` and the trace of observable actions.  `child.stdin` and
`child.stdout` are `Some` whenever the spawn succeeded, because both are
configured as `Stdio::piped()`, so the two `ok_or` checks on them cannot
fire. -/
def run_python_analysis (w : World) : Option (Except String PythonResponse × Trace) :=
  if !w.pythonFound then some (.error pythonNotFoundMsg, .initial)
  else if !w.scriptFound then some (.error scriptNotFoundMsg, .initial)
  else if !w.serializeOk then some (.error serializeFailMsg, .initial)
  else if !w.spawnOk then some (.error spawnFailMsg, .initial)
  else if !w.writeReqOk then some (.error writeStdinFailMsg, .initial)
  else if !w.writeNlOk then some (.error writeNewlineFailMsg, .initial)
  else if !w.flushOk then some (.error flushFailMsg, .initial)
  else
    match readLoop w.sink w.stdoutCloses w.stdoutEvents [] with
    | none => none
    | some o =>
      if o.timedOut then
        some (.error timeoutErrMsg,
          { stdinClosedBeforeReadLoop := stdinClosedAtBlockEnd run_python_analysis_stdin_op
            emitted := o.emitted
            killedInLoop := true
            reap := none })
      else
        some
          (match o.finalResponse with
           | some resp => .ok resp
           | none => .error noResponseMsg,
           { stdinClosedBeforeReadLoop := stdinClosedAtBlockEnd run_python_analysis_stdin_op
             emitted := o.emitted
             killedInLoop := false
             reap := some (reapPhase w.reap) })

/-- How a standard stream of the child is configured at spawn time. -/
inductive StdioCfg where
  | piped
  | nullDev
deriving DecidableEq

/-- Whether `child.stdout` is `Some` after a successful spawn: `Stdio::piped()`
installs a capture pipe, `Stdio::null()` leaves no handle, so a subsequent
`child.stdout.take()` yields `None`. -/
def childStdoutAvailable : StdioCfg → Bool
  | .piped => true
  | .nullDev => false

/-- Function `calculate_metrics` configures the child's stdout as `Stdio::null()`
(python_bridge.rs line 340). -/
def calculate_metrics_stdout_cfg : StdioCfg := .nullDev

def pythonNotFoundShortMsg : String := "Python not found"
def captureStdoutFailMsg : String := "Failed to capture Python stdout"
def metricsNoResponseMsg : String := "No response from Python for metrics calculation"

/-- Environment of one `calculate_metrics` call. -/
structure MetricsWorld where
  pythonFound : Bool
  scriptFound : Bool
  spawnOk : Bool
  stdoutEvents : List TimedItem
  stdoutCloses : Bool

/-- The stdout read loop of `calculate_metrics` (lines 355-369): same noise
filter, only the `PythonResponse` parse, and — although a 60-second
`_timeout_duration` is declared at line 353 — no deadline check anywhere in
the loop body, so the items' arrival times are never consulted. -/
def metricsReadLoop (closes : Bool) : List TimedItem → Option (Option PythonResponse)
  | [] => if closes then some none else none
  | e :: rest =>
    match e.item with
    | .ioErr => metricsReadLoop closes rest
    | .text l =>
      if !(startsWithBrace l.raw) then metricsReadLoop closes rest
      else
        match l.responseParse with
        | some r => some (some r)
        | none => metricsReadLoop closes rest

/-- Shallow embedding of `calculate_metrics` (python_bridge.rs lines 324-382).
The child is spawned with stdout configured by `calculate_metrics_stdout_cfg`;
`child.stdout.take().ok_or("Failed to capture Python stdout")?` therefore
fails before the read loop can run. -/
def calculate_metrics (w : MetricsWorld) : Option (Except String PythonResponse) :=
  if !w.pythonFound then some (.error pythonNotFoundShortMsg)
  else if !w.scriptFound then some (.error scriptNotFoundMsg)
  else if !w.spawnOk then some (.error spawnFailMsg)
  else if childStdoutAvailable calculate_metrics_stdout_cfg then
    match metricsReadLoop w.stdoutCloses w.stdoutEvents with
    | none => none
    | some (some r) => some (.ok r)
    | some none => some (.error metricsNoResponseMsg)
  else some (.error captureStdoutFailMsg)

/-- Struct `ApiKeys` from settings.rs lines 8-15. -/
structure ApiKeys where
  gemini : String
  groq : String
  openai : String
  openrouter : String
  opencode : String

/-- Struct `SupabaseConfig` from settings.rs lines 29-33. -/
structure SupabaseConfig where
  url : String
  key : String

/-- Struct `LLMSettings` from settings.rs lines 46-63; the `f32` fields are modelled
as rationals (no arithmetic is performed on them in the verified paths). -/
structure LLMSettings where
  ollama_host : String
  ollama_port : Nat
  selected_model : String
  context_window : Nat
  temperature : Rat
  top_p : Rat
  top_k : Nat
  system_prompt : String
  keep_alive : String
  seed : Option Int
  num_predict : Option Int
  repeat_penalty : Rat
  format : Option String
  num_gpu : Int

/-- Struct `AppSettings` from settings.rs lines 88-115. -/
structure AppSettings where
  llm : LLMSettings
  auto_start_ollama : Bool
  theme : String
  language : String
  accent_color : String
  enable_ai : Bool
  ai_provider : String
  api_keys : ApiKeys
  model_name : String
  supabase_config : SupabaseConfig

/-- Impl `Default for LLMSettings`, settings.rs lines 67-86. -/
def LLMSettings.default : LLMSettings :=
  { ollama_host := "localhost"
    ollama_port := 11434
    selected_model := "llama3.2"
    context_window := 4096
    temperature := 0.7
    top_p := 0.9
    top_k := 40
    system_prompt := "You are a helpful assistant."
    keep_alive := "5m"
    seed := none
    num_predict := none
    repeat_penalty := 1.1
    format := none
    num_gpu := -1 }

/-- Impl `Default for AppSettings`, settings.rs lines 121-136. -/
def AppSettings.default : AppSettings :=
  { llm := LLMSettings.default
    auto_start_ollama := true
    theme := "system"
    language := "en"
    accent_color := "violet"
    enable_ai := true
    ai_provider := "gemini"
    api_keys := ⟨"", "", "", "", ""⟩
    model_name := ""
    supabase_config := ⟨"", ""⟩ }

/-- Model of `serde_json::Value::as_bool`. -/
def Json.as_bool : Json → Option Bool
  | .bool b => some b
  | _ => none

/-- Model of `serde_json::Value::as_str`. -/
def Json.as_str : Json → Option String
  | .str s => some s
  | _ => none

/-- First field with the given name in a JSON object's field list. -/
def jsonField (fs : List (String × Json)) (k : String) : Option Json :=
  (fs.find? (fun kv => kv.fst = k)).map (fun kv => kv.snd)

/-- Model of `serde_json::from_value::<ApiKeys>`: an object with all five keys present
as strings (unknown extra keys are ignored by serde's default behaviour). -/
def apiKeysFromValue : Json → Except String ApiKeys
  | .obj fs =>
    match (jsonField fs "gemini").bind Json.as_str,
        (jsonField fs "groq").bind Json.as_str,
        (jsonField fs "openai").bind Json.as_str,
        (jsonField fs "openrouter").bind Json.as_str,
        (jsonField fs "opencode").bind Json.as_str with
    | some g, some gr, some oa, some orr, some oc => .ok ⟨g, gr, oa, orr, oc⟩
    | _, _, _, _, _ => .error "invalid type for ApiKeys"
  | _ => .error "invalid type for ApiKeys"

/-- Model of `serde_json::from_value::<SupabaseConfig>`. -/
def supabaseFromValue : Json → Except String SupabaseConfig
  | .obj fs =>
    match (jsonField fs "url").bind Json.as_str,
        (jsonField fs "key").bind Json.as_str with
    | some u, some k => .ok ⟨u, k⟩
    | _, _ => .error "invalid type for SupabaseConfig"
  | _ => .error "invalid type for SupabaseConfig"

/-- Result of an `update_setting` call: the value returned to the caller, the
in-memory settings after the call, and whether `store.save()` was invoked. -/
structure UpdateResult where
  result : Except String Unit
  settings : AppSettings
  saveCalled : Bool

/-- Shallow embedding of `update_setting` (settings.rs lines 187-228), from
the point after the store lock is acquired.  `saveResult` is the outcome of
`store.save()` (file I/O), returned verbatim on every recognised key. -/
def update_setting (saveResult : Except String Unit) (s : AppSettings)
    (key : String) (value : Json) : UpdateResult :=
  if key = "auto_start_ollama" then
    ⟨saveResult, { s with auto_start_ollama := value.as_bool.getD true }, true⟩
  else if key = "theme" then
    ⟨saveResult, { s with theme := value.as_str.getD "system" }, true⟩
  else if key = "accentColor" then
    ⟨saveResult, { s with accent_color := value.as_str.getD "violet" }, true⟩
  else if key = "enableAI" then
    ⟨saveResult, { s with enable_ai := value.as_bool.getD true }, true⟩
  else if key = "aiProvider" then
    ⟨saveResult, { s with ai_provider := value.as_str.getD "gemini" }, true⟩
  else if key = "modelName" then
    ⟨saveResult, { s with model_name := value.as_str.getD "" }, true⟩
  else if key = "apiKeys" then
    match apiKeysFromValue value with
    | .ok v => ⟨saveResult, { s with api_keys := v }, true⟩
    | .error _ => ⟨saveResult, s, true⟩
  else if key = "supabaseConfig" then
    match supabaseFromValue value with
    | .ok v => ⟨saveResult, { s with supabase_config := v }, true⟩
    | .error _ => ⟨saveResult, s, true⟩
  else
    ⟨.error ("Unknown setting: " ++ key), s, false⟩

/-- The keys recognised by `update_setting`'s match (settings.rs lines
195-223). -/
def recognizedKeys : List String :=
  ["auto_start_ollama", "theme", "accentColor", "enableAI",
   "aiProvider", "modelName", "apiKeys", "supabaseConfig"]

/-- The progress events a list of stdout items causes the loop to push to the
sink, each paired with the result of its `app.emit` call. -/
def emits (sink : ProgressUpdate → Bool) (evs : List TimedItem) : List (ProgressUpdate × Bool) :=
  evs.filterMap (fun e => (progressOf e).map (fun p => (p, sink p)))

/-- Projection of a loop outcome onto everything except the (discarded)
`app.emit` results. -/
def loopProj (o : Option LoopOutcome) :
    Option (Option PythonResponse × List ProgressUpdate × Bool) :=
  o.map (fun x => (x.finalResponse, x.emitted.map Prod.fst, x.timedOut))

/-- The write/flush pipeline of a call succeeded end to end. -/
def GoodPipeline (w : World) : Prop :=
  w.pythonFound = true ∧ w.scriptFound = true ∧ w.serializeOk = true ∧
  w.spawnOk = true ∧ w.writeReqOk = true ∧ w.writeNlOk = true ∧ w.flushOk = true

/-- Claim C1 as stated by the spec: whenever the pipeline is healthy and the
worker emits no further output (and never closes its stdout), the call returns
the timeout error once the deadline elapses, with the worker killed. -/
def claimC1 : Prop :=
  ∀ w : World, GoodPipeline w → w.stdoutEvents = [] → w.stdoutCloses = false →
    ∃ t : Trace, run_python_analysis w = some (Except.error timeoutErrMsg, t) ∧
      t.killedInLoop = true

/-- Claim C2 as stated by the spec, instantiated at its own example: a failure
to write the framed request after a successful spawn still performs the
reaping phase before the call returns. -/
def claimC2 : Prop :=
  ∀ w : World, w.pythonFound = true → w.scriptFound = true → w.serializeOk = true →
    w.spawnOk = true → w.writeReqOk = false →
    ∀ res : Except String PythonResponse, ∀ t : Trace,
      run_python_analysis w = some (res, t) → t.reap ≠ none

def lineNoise : StdoutLine := ⟨['[', 'I', 'N', 'F', 'O', ']'], none, none⟩
def p33 : ProgressUpdate := ⟨"progress", 1, 3, 33, "page 1", none, none⟩
def p66 : ProgressUpdate := ⟨"progress", 2, 3, 66, "page 2", none, none⟩
def respA : PythonResponse :=
  ⟨"success", some (.obj [("rows", .num 12)]), none, none, none, none⟩
def lineP33 : StdoutLine := ⟨['\x7b', '\x7d'], some p33, none⟩
def lineP66 : StdoutLine := ⟨['\x7b', '\x7d'], some p66, none⟩
def lineTerm : StdoutLine := ⟨['\x7b', '\x7d'], none, some respA⟩
def lineGarbage : StdoutLine := ⟨['\x7b', ' ', 'o', 'o', 'p', 's'], none, none⟩

def reapEnvQuick : ReapEnv := ⟨[], fun _ => TryWaitRes.exited, true⟩
def reapEnvStuck : ReapEnv :=
  ⟨[some "traceback", none, some "detail"], fun _ => TryWaitRes.running, true⟩

/-- Healthy pipeline, worker silent forever, stdout never closes. -/
def silentWorld : World :=
  ⟨true, true, true, true, true, true, true, fun _ => true, [], false, reapEnvQuick⟩

/-- Healthy pipeline, worker exits immediately with no output. -/
def silentCloseWorld : World :=
  ⟨true, true, true, true, true, true, true, fun _ => true, [], true, reapEnvQuick⟩

/-- Healthy spawn, first write to the worker's stdin fails. -/
def writeFailWorld : World :=
  ⟨true, true, true, true, false, true, true, fun _ => true, [], true, reapEnvQuick⟩

/-- Healthy spawn, writing the newline fails. -/
def nlFailWorld : World :=
  ⟨true, true, true, true, true, false, true, fun _ => true, [], true, reapEnvQuick⟩

/-- Healthy spawn, flushing the worker's stdin fails. -/
def flushFailWorld : World :=
  ⟨true, true, true, true, true, true, false, fun _ => true, [], true, reapEnvQuick⟩

/-- Healthy pipeline; the first stdout line arrives after the deadline. -/
def lateWorld : World :=
  ⟨true, true, true, true, true, true, true, fun _ => true,
   [⟨timeoutMs + 1, .text lineNoise⟩], true, reapEnvQuick⟩

/-- Healthy pipeline; two progress lines then a terminal line. -/
def goodWorldA : World :=
  ⟨true, true, true, true, true, true, true, fun _ => true,
   [⟨1000, .text lineP33⟩, ⟨2000, .text lineP66⟩, ⟨3000, .text lineTerm⟩],
   true, reapEnvQuick⟩

theorem readLoop_progress_chain (sink : ProgressUpdate → Bool) (closes : Bool)
    (pre rest : List TimedItem) (hp : ∀ e ∈ pre, ProgressItem e) :
    ∀ acc, readLoop sink closes (pre ++ rest) acc
      = readLoop sink closes rest ((emits sink pre).reverse ++ acc) := by
  induction pre with
  | nil => intro acc; simp [emits]
  | cons e pre' ih =>
    intro acc
    obtain ⟨hle, l, p, hi, hb, hpp, hst⟩ := hp e (List.mem_cons_self _ _)
    have hnt : ¬ timeoutMs < e.arriveMs := Nat.not_lt.mpr hle
    have hprog : progressOf e = some p := by
      simp [progressOf, hi, hb, hpp, hst]
    have hstep : readLoop sink closes ((e :: pre') ++ rest) acc
        = readLoop sink closes (pre' ++ rest) ((p, sink p) :: acc) := by
      rw [List.cons_append]
      simp only [readLoop]
      rw [if_neg hnt, hi]
      simp [hb, hpp, hst]
    rw [hstep, ih (fun x hx => hp x (List.mem_cons_of_mem _ hx)) _]
    congr 1
    simp [emits, List.filterMap_cons, hprog, List.reverse_cons, List.append_assoc]

theorem emits_length_of_progress (sink : ProgressUpdate → Bool)
    (pre : List TimedItem) (hp : ∀ e ∈ pre, ProgressItem e) :
    (emits sink pre).length = pre.length := by
  induction pre with
  | nil => rfl
  | cons e pre' ih =>
    obtain ⟨hle, l, p, hi, hb, hpp, hst⟩ := hp e (List.mem_cons_self _ _)
    have hprog : progressOf e = some p := by
      simp [progressOf, hi, hb, hpp, hst]
    have ih' := ih (fun x hx => hp x (List.mem_cons_of_mem _ hx))
    simp only [emits, List.filterMap_cons, hprog, Option.map_some]
    simpa [emits] using ih'

theorem readLoop_terminal_step (sink : ProgressUpdate → Bool) (closes : Bool)
    (tl : TimedItem) (r : PythonResponse) (after : List TimedItem)
    (ht : TerminalItem tl r) :
    ∀ acc, readLoop sink closes (tl :: after) acc = some ⟨some r, acc.reverse, false⟩ := by
  intro acc
  obtain ⟨hle, l, hi, hb, hnp, hrp⟩ := ht
  have hnt : ¬ timeoutMs < tl.arriveMs := Nat.not_lt.mpr hle
  simp only [readLoop]
  rw [if_neg hnt, hi]
  cases hpp : l.progressParse with
  | none => simp [hb, hpp, hrp]
  | some p =>
    have hne : ¬ p.status = "progress" := hnp p hpp
    simp [hb, hpp, hne, hrp]

theorem readLoop_nonterminal (sink : ProgressUpdate → Bool) (evs : List TimedItem)
    (hn : ∀ e ∈ evs, e.arriveMs ≤ timeoutMs ∧ terminalOf e = none) :
    ∀ acc, readLoop sink true evs acc = some ⟨none, acc.reverse ++ emits sink evs, false⟩ := by
  induction evs with
  | nil => intro acc; simp [readLoop, emits]
  | cons e evs' ih =>
    intro acc
    obtain ⟨hle, hterm⟩ := hn e (List.mem_cons_self _ _)
    have hnt : ¬ timeoutMs < e.arriveMs := Nat.not_lt.mpr hle
    have ih' := ih (fun x hx => hn x (List.mem_cons_of_mem _ hx))
    simp only [readLoop]
    rw [if_neg hnt]
    cases hitem : e.item with
    | ioErr =>
      have hprog : progressOf e = none := by simp [progressOf, hitem]
      simp [ih' acc, emits, List.filterMap_cons, hprog]
    | text l =>
      by_cases hb : startsWithBrace l.raw
      · cases hpp : l.progressParse with
        | some p =>
          by_cases hstat : p.status = "progress"
          · have hprog : progressOf e = some p := by
              simp [progressOf, hitem, hb, hpp, hstat]
            simp only [hb, hpp, hstat, Bool.not_true, Bool.false_eq_true,
              if_false, if_true, ih' ((p, sink p) :: acc)]
            simp [emits, List.filterMap_cons, hprog, List.reverse_cons,
              List.append_assoc]
          · have hrp : l.responseParse = none := by
              simpa [terminalOf, hitem, hb, hpp, hstat] using hterm
            have hprog : progressOf e = none := by
              simp [progressOf, hitem, hb, hpp, hstat]
            simp only [hb, hpp, hstat, hrp, ih' acc]
            simp [emits, List.filterMap_cons, hprog]
        | none =>
          have hrp : l.responseParse = none := by
            simpa [terminalOf, hitem, hb, hpp] using hterm
          have hprog : progressOf e = none := by
            simp [progressOf, hitem, hb, hpp]
          simp only [hb, hpp, hrp, ih' acc]
          simp [emits, List.filterMap_cons, hprog]
      · have hprog : progressOf e = none := by simp [progressOf, hitem, hb]
        simp only [hb, Bool.not_false, if_true, ih' acc]
        simp [emits, List.filterMap_cons, hprog]

theorem reapLoopAux_window (tw : Nat → TryWaitRes)
    (h : ∀ i, tw i = TryWaitRes.running) :
    ∀ fuel i, reapLoopAux tw i fuel = ReapLoopEnd.window := by
  intro fuel
  induction fuel with
  | zero => intro i; rfl
  | succ n ih =>
    intro i
    simp only [reapLoopAux, h i]
    exact ih (i + 1)

theorem readLoop_sink_proj (sink1 sink2 : ProgressUpdate → Bool) (closes : Bool)
    (evs : List TimedItem) :
    ∀ acc1 acc2, acc1.map Prod.fst = acc2.map Prod.fst →
      loopProj (readLoop sink1 closes evs acc1)
        = loopProj (readLoop sink2 closes evs acc2) := by
  induction evs with
  | nil =>
    intro acc1 acc2 h
    by_cases hc : closes <;> simp [readLoop, hc, loopProj, List.map_reverse, h]
  | cons e evs' ih =>
    intro acc1 acc2 h
    simp only [readLoop]
    by_cases hnt : timeoutMs < e.arriveMs
    · simp [hnt, loopProj, List.map_reverse, h]
    · rw [if_neg hnt, if_neg hnt]
      cases hitem : e.item with
      | ioErr => exact ih _ _ h
      | text l =>
        by_cases hb : startsWithBrace l.raw
        · simp only [hb, Bool.not_true, Bool.false_eq_true, if_false]
          cases hpp : l.progressParse with
          | some p =>
            by_cases hstat : p.status = "progress"
            · simp only [hstat, if_true]
              exact ih _ _ (by simp [h])
            · cases hrp : l.responseParse with
              | some r => simp [hstat, hrp, loopProj, List.map_reverse, h]
              | none =>
                simp only [hstat, if_false, hrp]
                exact ih _ _ h
          | none =>
            cases hrp : l.responseParse with
            | some r => simp [hrp, loopProj, List.map_reverse, h]
            | none => exact ih _ _ h
        · simp only [hb, Bool.not_false, if_true]
          exact ih _ _ h

/-- C1 counterexample: with a healthy pipeline and a worker that emits no
further output and never closes its stdout, `run_python_analysis` never
returns at all — `reader.lines()` blocks forever, so no Timeout error is
produced within the deadline plus poll granularity, refuting the claim that
the deadline check is performed while waiting for the next line. -/
theorem C1_counterexample : run_python_analysis silentWorld = none ∧ ¬ claimC1 := by
  have hnone : run_python_analysis silentWorld = none := rfl
  refine ⟨hnone, ?_⟩
  intro h
  obtain ⟨t, ht, -⟩ := h silentWorld ⟨rfl, rfl, rfl, rfl, rfl, rfl, rfl⟩ rfl rfl
  rw [hnone] at ht
  exact Option.noConfusion ht

/-- C1 amended: the 900-second deadline is checked only when the line reader
yields an item.  A worker that stays silent forever without closing its
stdout is never caught (the call never returns); when the next item does
arrive after the deadline has elapsed, the call kills the worker and returns
the timeout error (skipping the reaping phase). -/
theorem C1_amended_deadline_on_arrival :
    (∀ w : World, GoodPipeline w → w.stdoutEvents = [] → w.stdoutCloses = false →
       run_python_analysis w = none) ∧
    (∀ w : World, ∀ e : TimedItem, ∀ rest : List TimedItem, GoodPipeline w →
       w.stdoutEvents = e :: rest → timeoutMs < e.arriveMs →
       ∃ t : Trace, run_python_analysis w = some (Except.error timeoutErrMsg, t) ∧
         t.killedInLoop = true ∧ t.reap = none) := by
  constructor
  · intro w hg he hc
    obtain ⟨h1, h2, h3, h4, h5, h6, h7⟩ := hg
    simp [run_python_analysis, h1, h2, h3, h4, h5, h6, h7, he, hc, readLoop]
  · intro w e rest hg he hlt
    obtain ⟨h1, h2, h3, h4, h5, h6, h7⟩ := hg
    refine ⟨⟨stdinClosedAtBlockEnd run_python_analysis_stdin_op, [], true, none⟩, ?_, rfl, rfl⟩
    simp [run_python_analysis, h1, h2, h3, h4, h5, h6, h7, he, readLoop, hlt]

/-- Witness for the amended C1 at concrete worlds: the silent worker hangs
the call; a first line arriving one millisecond after the deadline produces
the timeout error with the worker killed. -/
theorem C1_amended_witness :
    run_python_analysis silentWorld = none ∧
    ∃ t : Trace, run_python_analysis lateWorld = some (Except.error timeoutErrMsg, t) ∧
      t.killedInLoop = true ∧ t.reap = none := by
  constructor
  · exact C1_amended_deadline_on_arrival.1 silentWorld ⟨rfl, rfl, rfl, rfl, rfl, rfl, rfl⟩ rfl rfl
  · exact C1_amended_deadline_on_arrival.2 lateWorld ⟨timeoutMs + 1, .text lineNoise⟩ []
      ⟨rfl, rfl, rfl, rfl, rfl, rfl, rfl⟩ rfl (Nat.lt_succ_self timeoutMs)

/-- C2 counterexample: when the first stdin write fails after a successful
spawn, the call returns the write error immediately with an empty trace — the
reaping phase (stderr drain, exit wait, kill) is skipped, refuting the claim
that cleanup is unconditional on post-spawn failure paths. -/
theorem C2_counterexample : ¬ claimC2 := by
  intro h
  exact h writeFailWorld rfl rfl rfl rfl rfl
    (Except.error writeStdinFailMsg) Trace.initial rfl rfl

/-- C2 amended: a failure to write the framed request, write the newline, or
flush returns the corresponding error immediately and skips the reaping
phase entirely (`Trace.initial` records no reap actions); the reaping phase
runs exactly when the read loop exits normally — with a terminal response or
end-of-stream — and not on the deadline path. -/
theorem C2_amended_cleanup_skipped :
    (∀ w : World, w.pythonFound = true → w.scriptFound = true → w.serializeOk = true →
       w.spawnOk = true → w.writeReqOk = false →
       run_python_analysis w = some (Except.error writeStdinFailMsg, Trace.initial)) ∧
    (∀ w : World, w.pythonFound = true → w.scriptFound = true → w.serializeOk = true →
       w.spawnOk = true → w.writeReqOk = true → w.writeNlOk = false →
       run_python_analysis w = some (Except.error writeNewlineFailMsg, Trace.initial)) ∧
    (∀ w : World, w.pythonFound = true → w.scriptFound = true → w.serializeOk = true →
       w.spawnOk = true → w.writeReqOk = true → w.writeNlOk = true → w.flushOk = false →
       run_python_analysis w = some (Except.error flushFailMsg, Trace.initial)) ∧
    Trace.initial.reap = none ∧
    (∀ w : World, ∀ o : LoopOutcome, GoodPipeline w →
       readLoop w.sink w.stdoutCloses w.stdoutEvents [] = some o → o.timedOut = false →
       ∃ res : Except String PythonResponse, ∃ t : Trace,
         run_python_analysis w = some (res, t) ∧ t.reap = some (reapPhase w.reap)) := by
  refine ⟨?_, ?_, ?_, rfl, ?_⟩
  · intro w h1 h2 h3 h4 h5
    simp [run_python_analysis, h1, h2, h3, h4, h5]
  · intro w h1 h2 h3 h4 h5 h6
    simp [run_python_analysis, h1, h2, h3, h4, h5, h6]
  · intro w h1 h2 h3 h4 h5 h6 h7
    simp [run_python_analysis, h1, h2, h3, h4, h5, h6, h7]
  · intro w o hg hrl hto
    obtain ⟨h1, h2, h3, h4, h5, h6, h7⟩ := hg
    refine ⟨match o.finalResponse with
        | some resp => Except.ok resp
        | none => Except.error noResponseMsg,
      ⟨stdinClosedAtBlockEnd run_python_analysis_stdin_op, o.emitted, false,
        some (reapPhase w.reap)⟩, ?_, rfl⟩
    simp [run_python_analysis, h1, h2, h3, h4, h5, h6, h7, hrl, hto]

/-- Witness for the amended C2 at concrete worlds: each of the three write
failures returns its error with no reap actions recorded; a worker that
exits silently still gets the full reaping phase. -/
theorem C2_amended_witness :
    run_python_analysis writeFailWorld
        = some (Except.error writeStdinFailMsg, Trace.initial) ∧
    run_python_analysis nlFailWorld
        = some (Except.error writeNewlineFailMsg, Trace.initial) ∧
    run_python_analysis flushFailWorld
        = some (Except.error flushFailMsg, Trace.initial) ∧
    ∃ res : Except String PythonResponse, ∃ t : Trace,
      run_python_analysis silentCloseWorld = some (res, t) ∧
        t.reap = some (reapPhase silentCloseWorld.reap) := by
  refine ⟨?_, ?_, ?_, ?_⟩
  · exact C2_amended_cleanup_skipped.1 writeFailWorld rfl rfl rfl rfl rfl
  · exact C2_amended_cleanup_skipped.2.1 nlFailWorld rfl rfl rfl rfl rfl rfl
  · exact C2_amended_cleanup_skipped.2.2.1 flushFailWorld rfl rfl rfl rfl rfl rfl rfl
  · exact C2_amended_cleanup_skipped.2.2.2.2 silentCloseWorld ⟨none, [], false⟩
      ⟨rfl, rfl, rfl, rfl, rfl, rfl, rfl⟩ rfl rfl

/-- C3: the request-writing block takes `child.stdin` by `as_mut`, a reborrow
that leaves the pipe handle inside the child, so the worker's stdin is NOT
closed when the block ends — the read loop runs with the pipe still open and
the worker receives no EOF, contradicting the source's own comment at
python_bridge.rs line 188 ("stdin is dropped here, closing the pipe").  The
sibling `update_terminology_mapping` uses `take`, which does close the pipe,
confirming the model distinguishes the two. -/
theorem C3_stdin_left_open :
    stdinClosedAtBlockEnd run_python_analysis_stdin_op = false ∧
    stdinClosedAtBlockEnd update_terminology_mapping_stdin_op = true ∧
    ∃ t : Trace, run_python_analysis goodWorldA = some (Except.ok respA, t) ∧
      t.stdinClosedBeforeReadLoop = false := by
  refine ⟨rfl, rfl, ⟨_, rfl, rfl⟩⟩

/-- C4: per-line classification in the read loop of `run_python_analysis`,
for a line arriving within the deadline: (1) a line whose trimmed form does
not begin with the object-opening character is discarded and reading
continues; (2) a line parsing as a progress event with discriminator
"progress" is classified as Progress and the loop continues — regardless of
whether the line would also parse as a terminal response, which is never
attempted; (3) otherwise a line parsing as a terminal response stops the
loop with that response; (4) a line parsing as neither is discarded and
reading continues. -/
theorem C4_line_classification (sink : ProgressUpdate → Bool) (closes : Bool)
    (e : TimedItem) (l : StdoutLine) (rest : List TimedItem)
    (acc : List (ProgressUpdate × Bool))
    (hle : e.arriveMs ≤ timeoutMs) (hi : e.item = LineItem.text l) :
    (startsWithBrace l.raw = false →
       readLoop sink closes (e :: rest) acc = readLoop sink closes rest acc) ∧
    (∀ p : ProgressUpdate, startsWithBrace l.raw = true → l.progressParse = some p →
       p.status = "progress" →
       readLoop sink closes (e :: rest) acc
         = readLoop sink closes rest ((p, sink p) :: acc)) ∧
    (∀ r : PythonResponse, startsWithBrace l.raw = true →
       (∀ p, l.progressParse = some p → ¬ p.status = "progress") →
       l.responseParse = some r →
       readLoop sink closes (e :: rest) acc = some ⟨some r, acc.reverse, false⟩) ∧
    (startsWithBrace l.raw = true →
       (∀ p, l.progressParse = some p → ¬ p.status = "progress") →
       l.responseParse = none →
       readLoop sink closes (e :: rest) acc = readLoop sink closes rest acc) := by
  have hnt : ¬ timeoutMs < e.arriveMs := Nat.not_lt.mpr hle
  refine ⟨?_, ?_, ?_, ?_⟩
  · intro hb
    simp only [readLoop]
    rw [if_neg hnt, hi]
    simp [hb]
  · intro p hb hpp hstat
    simp only [readLoop]
    rw [if_neg hnt, hi]
    simp [hb, hpp, hstat]
  · intro r hb hnp hrp
    exact readLoop_terminal_step sink closes e r rest ⟨hle, l, hi, hb, hnp, hrp⟩ acc
  · intro hb hnp hrp
    simp only [readLoop]
    rw [if_neg hnt, hi]
    cases hpp : l.progressParse with
    | none => simp [hb, hpp, hrp]
    | some p =>
      have hne : ¬ p.status = "progress" := hnp p hpp
      simp [hb, hpp, hne, hrp]

/-- Witness for C4 at concrete lines: a non-JSON noise line, a progress
line, a terminal line, and a brace-opening line parsing as neither. -/
theorem C4_witness :
    readLoop (fun _ => true) true [⟨10, .text lineNoise⟩] []
        = readLoop (fun _ => true) true [] [] ∧
    readLoop (fun _ => true) true [⟨10, .text lineP33⟩] []
        = readLoop (fun _ => true) true [] [(p33, true)] ∧
    readLoop (fun _ => true) true [⟨10, .text lineTerm⟩] []
        = some ⟨some respA, [], false⟩ ∧
    readLoop (fun _ => true) true [⟨10, .text lineGarbage⟩] []
        = readLoop (fun _ => true) true [] [] := by
  refine ⟨?_, ?_, ?_, ?_⟩
  · exact (C4_line_classification (fun _ => true) true ⟨10, .text lineNoise⟩ lineNoise
      [] [] (by decide) rfl).1 (by decide)
  · exact (C4_line_classification (fun _ => true) true ⟨10, .text lineP33⟩ lineP33
      [] [] (by decide) rfl).2.1 p33 (by decide) rfl rfl
  · exact (C4_line_classification (fun _ => true) true ⟨10, .text lineTerm⟩ lineTerm
      [] [] (by decide) rfl).2.2.1 respA (by decide)
      (fun _ hp => Option.noConfusion hp) rfl
  · exact (C4_line_classification (fun _ => true) true ⟨10, .text lineGarbage⟩ lineGarbage
      [] [] (by decide) rfl).2.2.2 (by decide)
      (fun _ hp => Option.noConfusion hp) rfl

/-- C5: for a healthy pipeline whose stdout consists of progress-classified
lines followed by a terminal-classified line (and arbitrary further items,
never examined), the call pushes exactly one sink event per progress line, in
reading order, and returns the terminal payload as the call result. -/
theorem C5_progress_then_terminal (w : World) (pre : List TimedItem)
    (tl : TimedItem) (r : PythonResponse) (after : List TimedItem)
    (hg : GoodPipeline w) (hev : w.stdoutEvents = pre ++ tl :: after)
    (hp : ∀ e ∈ pre, ProgressItem e) (ht : TerminalItem tl r) :
    ∃ t : Trace, run_python_analysis w = some (Except.ok r, t) ∧
      t.emitted = emits w.sink pre ∧ (emits w.sink pre).length = pre.length := by
  obtain ⟨h1, h2, h3, h4, h5, h6, h7⟩ := hg
  have hloop : readLoop w.sink w.stdoutCloses w.stdoutEvents []
      = some ⟨some r, emits w.sink pre, false⟩ := by
    rw [hev, readLoop_progress_chain w.sink w.stdoutCloses pre (tl :: after) hp,
      readLoop_terminal_step w.sink w.stdoutCloses tl r after ht]
    simp
  refine ⟨⟨stdinClosedAtBlockEnd run_python_analysis_stdin_op, emits w.sink pre, false,
    some (reapPhase w.reap)⟩, ?_, rfl, emits_length_of_progress w.sink pre hp⟩
  simp [run_python_analysis, h1, h2, h3, h4, h5, h6, h7, hloop]

/-- Witness for C5: two progress lines (33%, 66%) then a success response;
the sink receives exactly the two progress events, in order, and the call
returns the success payload. -/
theorem C5_witness :
    ∃ t : Trace, run_python_analysis goodWorldA = some (Except.ok respA, t) ∧
      t.emitted = emits goodWorldA.sink [⟨1000, .text lineP33⟩, ⟨2000, .text lineP66⟩] ∧
      (emits goodWorldA.sink [⟨1000, .text lineP33⟩, ⟨2000, .text lineP66⟩]).length = 2 := by
  exact C5_progress_then_terminal goodWorldA
    [⟨1000, .text lineP33⟩, ⟨2000, .text lineP66⟩] ⟨3000, .text lineTerm⟩ respA []
    ⟨rfl, rfl, rfl, rfl, rfl, rfl, rfl⟩ rfl
    (by
      intro e he
      simp only [List.mem_cons, List.mem_singleton] at he
      rcases he with h | h | h
      · exact h ▸ ⟨by decide, lineP33, p33, rfl, by decide, rfl, rfl⟩
      · exact h ▸ ⟨by decide, lineP66, p66, rfl, by decide, rfl, rfl⟩
      · cases h)
    ⟨by decide, lineTerm, rfl, by decide, fun _ hp => Option.noConfusion hp, rfl⟩

/-- C6: for a healthy pipeline whose stdout closes after items none of which
is classified as a terminal response (and all within the deadline), the call
returns the NoResponse error — an error distinct from success by
construction and distinct from the Timeout error — rather than succeeding or
hanging. -/
theorem C6_noresponse (w : World) (hg : GoodPipeline w) (hc : w.stdoutCloses = true)
    (hn : ∀ e ∈ w.stdoutEvents, e.arriveMs ≤ timeoutMs ∧ terminalOf e = none) :
    (∃ t : Trace, run_python_analysis w = some (Except.error noResponseMsg, t)) ∧
      noResponseMsg ≠ timeoutErrMsg := by
  obtain ⟨h1, h2, h3, h4, h5, h6, h7⟩ := hg
  have hloop := readLoop_nonterminal w.sink w.stdoutEvents hn []
  refine ⟨⟨⟨stdinClosedAtBlockEnd run_python_analysis_stdin_op,
    emits w.sink w.stdoutEvents, false, some (reapPhase w.reap)⟩, ?_⟩, ?_⟩
  · simp [run_python_analysis, h1, h2, h3, h4, h5, h6, h7, hc, hloop]
  · decide

/-- Witness for C6: a worker that exits immediately with no output yields the
NoResponse error. -/
theorem C6_witness :
    (∃ t : Trace, run_python_analysis silentCloseWorld
        = some (Except.error noResponseMsg, t)) ∧
      noResponseMsg ≠ timeoutErrMsg := by
  exact C6_noresponse silentCloseWorld ⟨rfl, rfl, rfl, rfl, rfl, rfl, rfl⟩ rfl
    (by intro e he; cases he)

/-- C7: the reaping phase drains at most 10 stderr items (keeping the `Ok`
lines, used only for logging and never affecting the returned result — the
result component of the call is independent of the whole reap environment),
polls for process exit up to the 5-second cleanup window in 50 ms steps (100
polls), and if the process is still running through the whole window it
issues a forced kill followed by one final exit-status check; when the read
loop exits without timing out, the call's trace records exactly this reap
phase. -/
theorem C7_reaping :
    (∀ env : ReapEnv, (reapPhase env).drained = (env.stderrLines.take 10).filterMap id) ∧
    (cleanupMaxPolls = 100 ∧ cleanupMaxPolls * pollSleepMs = cleanupTimeoutMs) ∧
    (∀ env : ReapEnv, (∀ i, env.tryWait i = TryWaitRes.running) →
       reapPhase env = ⟨(env.stderrLines.take 10).filterMap id, ReapLoopEnd.window,
         true, true, env.tryWaitAfterKill⟩) ∧
    (∀ w : World, ∀ env : ReapEnv,
       (run_python_analysis { w with reap := env }).map Prod.fst
         = (run_python_analysis w).map Prod.fst) ∧
    (∀ w : World, ∀ o : LoopOutcome, GoodPipeline w →
       readLoop w.sink w.stdoutCloses w.stdoutEvents [] = some o → o.timedOut = false →
       ∃ t : Trace, ∃ res : Except String PythonResponse,
         run_python_analysis w = some (res, t) ∧ t.reap = some (reapPhase w.reap)) := by
  refine ⟨?_, ⟨by decide, by decide⟩, ?_, ?_, ?_⟩
  · intro env
    unfold reapPhase
    cases h : reapLoopAux env.tryWait 0 cleanupMaxPolls <;> simp [h]
  · intro env h
    unfold reapPhase
    rw [reapLoopAux_window env.tryWait h cleanupMaxPolls 0]
  · intro w env
    simp only [run_python_analysis]
    cases h1 : w.pythonFound with
    | false => simp [h1]
    | true =>
    cases h2 : w.scriptFound with
    | false => simp [h1, h2]
    | true =>
    cases h3 : w.serializeOk with
    | false => simp [h1, h2, h3]
    | true =>
    cases h4 : w.spawnOk with
    | false => simp [h1, h2, h3, h4]
    | true =>
    cases h5 : w.writeReqOk with
    | false => simp [h1, h2, h3, h4, h5]
    | true =>
    cases h6 : w.writeNlOk with
    | false => simp [h1, h2, h3, h4, h5, h6]
    | true =>
    cases h7 : w.flushOk with
    | false => simp [h1, h2, h3, h4, h5, h6, h7]
    | true =>
    cases hrl : readLoop w.sink w.stdoutCloses w.stdoutEvents [] with
    | none => simp [h1, h2, h3, h4, h5, h6, h7, hrl]
    | some o =>
      by_cases hto : o.timedOut
      · simp [h1, h2, h3, h4, h5, h6, h7, hrl, hto]
      · simp [h1, h2, h3, h4, h5, h6, h7, hrl, hto]
  · intro w o hg hrl hto
    obtain ⟨h1, h2, h3, h4, h5, h6, h7⟩ := hg
    refine ⟨⟨stdinClosedAtBlockEnd run_python_analysis_stdin_op, o.emitted, false,
        some (reapPhase w.reap)⟩,
      match o.finalResponse with
        | some resp => Except.ok resp
        | none => Except.error noResponseMsg, ?_, rfl⟩
    simp [run_python_analysis, h1, h2, h3, h4, h5, h6, h7, hrl, hto]

/-- Witness for C7 at a concrete environment: a worker that never exits
during the cleanup window is polled 100 times, then killed, with one final
status check; the drained diagnostics are the first 10 `Ok` stderr lines;
and swapping the whole reap environment does not change the call's result. -/
theorem C7_witness :
    (reapPhase reapEnvStuck).drained = ["traceback", "detail"] ∧
    reapPhase reapEnvStuck = ⟨["traceback", "detail"], ReapLoopEnd.window,
      true, true, true⟩ ∧
    (run_python_analysis { silentCloseWorld with reap := reapEnvStuck }).map Prod.fst
      = (run_python_analysis silentCloseWorld).map Prod.fst ∧
    ∃ t : Trace, ∃ res : Except String PythonResponse,
      run_python_analysis silentCloseWorld = some (res, t) ∧
        t.reap = some (reapPhase silentCloseWorld.reap) := by
  refine ⟨?_, ?_, ?_, ?_⟩
  · have h := C7_reaping.1 reapEnvStuck
    simpa [reapEnvStuck] using h
  · have h := C7_reaping.2.2.1 reapEnvStuck (fun _ => rfl)
    simpa [reapEnvStuck] using h
  · exact C7_reaping.2.2.2.1 silentCloseWorld reapEnvStuck
  · exact C7_reaping.2.2.2.2 silentCloseWorld ⟨none, [], false⟩
      ⟨rfl, rfl, rfl, rfl, rfl, rfl, rfl⟩ rfl rfl

/-- C8: progress forwarding is fire-and-forget.  (1) The classification
outcome — final response, timeout flag, and the sequence of progress events
pushed — is the same under any two sinks; (2) a progress line whose sink
emit fails is still recorded and the loop continues reading exactly as on
success; (3) the value returned to the caller is independent of the sink. -/
theorem C8_sink_fire_and_forget :
    (∀ sink1 sink2 : ProgressUpdate → Bool, ∀ closes : Bool, ∀ evs : List TimedItem,
       loopProj (readLoop sink1 closes evs [])
         = loopProj (readLoop sink2 closes evs [])) ∧
    (∀ sink : ProgressUpdate → Bool, ∀ closes : Bool, ∀ e : TimedItem,
       ∀ l : StdoutLine, ∀ p : ProgressUpdate, ∀ rest : List TimedItem,
       ∀ acc : List (ProgressUpdate × Bool),
       e.arriveMs ≤ timeoutMs → e.item = LineItem.text l →
       startsWithBrace l.raw = true → l.progressParse = some p →
       p.status = "progress" → sink p = false →
       readLoop sink closes (e :: rest) acc
         = readLoop sink closes rest ((p, false) :: acc)) ∧
    (∀ w : World, ∀ sink2 : ProgressUpdate → Bool,
       (run_python_analysis { w with sink := sink2 }).map Prod.fst
         = (run_python_analysis w).map Prod.fst) := by
  refine ⟨?_, ?_, ?_⟩
  · intro sink1 sink2 closes evs
    exact readLoop_sink_proj sink1 sink2 closes evs [] [] rfl
  · intro sink closes e l p rest acc hle hi hb hpp hstat hsp
    have hnt : ¬ timeoutMs < e.arriveMs := Nat.not_lt.mpr hle
    simp only [readLoop]
    rw [if_neg hnt, hi]
    simp [hb, hpp, hstat, hsp]
  · intro w sink2
    simp only [run_python_analysis]
    cases h1 : w.pythonFound with
    | false => simp [h1]
    | true =>
    cases h2 : w.scriptFound with
    | false => simp [h1, h2]
    | true =>
    cases h3 : w.serializeOk with
    | false => simp [h1, h2, h3]
    | true =>
    cases h4 : w.spawnOk with
    | false => simp [h1, h2, h3, h4]
    | true =>
    cases h5 : w.writeReqOk with
    | false => simp [h1, h2, h3, h4, h5]
    | true =>
    cases h6 : w.writeNlOk with
    | false => simp [h1, h2, h3, h4, h5, h6]
    | true =>
    cases h7 : w.flushOk with
    | false => simp [h1, h2, h3, h4, h5, h6, h7]
    | true =>
    have hproj := readLoop_sink_proj sink2 w.sink w.stdoutCloses w.stdoutEvents [] [] rfl
    cases hrl2 : readLoop sink2 w.stdoutCloses w.stdoutEvents [] with
    | none =>
      cases hrl : readLoop w.sink w.stdoutCloses w.stdoutEvents [] with
      | none => simp [h1, h2, h3, h4, h5, h6, h7, hrl, hrl2]
      | some o => rw [hrl, hrl2] at hproj; simp [loopProj] at hproj
    | some o2 =>
      cases hrl : readLoop w.sink w.stdoutCloses w.stdoutEvents [] with
      | none => rw [hrl, hrl2] at hproj; simp [loopProj] at hproj
      | some o =>
        rw [hrl, hrl2] at hproj
        simp only [loopProj, Option.map_some', Option.some.injEq,
          Prod.mk.injEq] at hproj
        obtain ⟨hfr, -, hto⟩ := hproj
        by_cases ht : o.timedOut
        · simp [h1, h2, h3, h4, h5, h6, h7, hrl, hrl2, ht, hto]
        · simp [h1, h2, h3, h4, h5, h6, h7, hrl, hrl2, ht, hto, hfr]

/-- Witness for C8 at concrete data: an always-failing sink produces the
same classification and the same returned value as an always-succeeding one
on the two-progress-then-terminal stream, and a failed emit of the 33%
event does not stop the loop. -/
theorem C8_witness :
    loopProj (readLoop (fun _ => false) true goodWorldA.stdoutEvents [])
      = loopProj (readLoop (fun _ => true) true goodWorldA.stdoutEvents []) ∧
    readLoop (fun _ => false) true [⟨10, .text lineP33⟩] []
      = readLoop (fun _ => false) true [] [(p33, false)] ∧
    (run_python_analysis { goodWorldA with sink := fun _ => false }).map Prod.fst
      = (run_python_analysis goodWorldA).map Prod.fst := by
  refine ⟨?_, ?_, ?_⟩
  · exact C8_sink_fire_and_forget.1 (fun _ => false) (fun _ => true) true
      goodWorldA.stdoutEvents
  · exact C8_sink_fire_and_forget.2.1 (fun _ => false) true ⟨10, .text lineP33⟩
      lineP33 p33 [] [] (by decide) rfl (by decide) rfl rfl rfl
  · exact C8_sink_fire_and_forget.2.2 goodWorldA (fun _ => false)

/-- C9: `calculate_metrics` spawns its worker with stdout configured as
`Stdio::null()`, so the `child.stdout.take().ok_or(...)` capture fails on
every call in which the earlier steps succeed — and every earlier failure is
also an error — hence the command returns an error for every input and can
never produce a successful `PythonResponse` (in particular the declared
60-second metrics timeout, unused even inside `metricsReadLoop`, is never
exercised). -/
theorem C9_metrics_always_error (w : MetricsWorld) :
    (∃ msg : String, calculate_metrics w = some (Except.error msg)) ∧
    ∀ r : PythonResponse, calculate_metrics w ≠ some (Except.ok r) := by
  have h : ∃ msg : String, calculate_metrics w = some (Except.error msg) := by
    cases h1 : w.pythonFound with
    | false => exact ⟨pythonNotFoundShortMsg, by simp [calculate_metrics, h1]⟩
    | true =>
    cases h2 : w.scriptFound with
    | false => exact ⟨scriptNotFoundMsg, by simp [calculate_metrics, h1, h2]⟩
    | true =>
    cases h3 : w.spawnOk with
    | false => exact ⟨spawnFailMsg, by simp [calculate_metrics, h1, h2, h3]⟩
    | true =>
      exact ⟨captureStdoutFailMsg, by
        simp [calculate_metrics, h1, h2, h3, childStdoutAvailable,
          calculate_metrics_stdout_cfg]⟩
  obtain ⟨msg, hmsg⟩ := h
  refine ⟨⟨msg, hmsg⟩, ?_⟩
  intro r hr
  rw [hmsg] at hr
  exact Except.noConfusion (Option.some.inj hr)

/-- C10: for every key outside the recognised set, `update_setting` returns
the Unknown-setting error, leaves every field of the in-memory settings
unchanged, and never calls `store.save()`. -/
theorem C10_unknown_key (saveResult : Except String Unit) (s : AppSettings)
    (key : String) (value : Json) (h : key ∉ recognizedKeys) :
    update_setting saveResult s key value
      = ⟨Except.error ("Unknown setting: " ++ key), s, false⟩ := by
  simp only [recognizedKeys, List.mem_cons, List.not_mem_nil, or_false,
    not_or] at h
  obtain ⟨h1, h2, h3, h4, h5, h6, h7, h8⟩ := h
  simp [update_setting, h1, h2, h3, h4, h5, h6, h7, h8]

/-- Witness for C10: the `language` field exists on `AppSettings` but is not
an updatable key; updating it fails with the Unknown-setting error, the
settings value is untouched, and save is not called. -/
theorem C10_witness :
    "language" ∉ recognizedKeys ∧
    update_setting (Except.ok ()) AppSettings.default "language" Json.null
      = ⟨Except.error ("Unknown setting: " ++ "language"), AppSettings.default, false⟩ := by
  refine ⟨by decide, ?_⟩
  exact C10_unknown_key (Except.ok ()) AppSettings.default "language" Json.null (by decide)
